import Mathlib

/-!
Verification of the type-comparison lookup generator
(`src/sorting/compare_lookup.py` of SnellerInc/sneller).

The script derives, for every ordered pair of 16 Ion type tags, one of
five relation outcomes used by a downstream tuple comparator.  We embed
the tags, the hand-authored strict-less table, the predicates
`not_supported` and `numeric`, the lookup helper `strict_less_aux`, the
central function `relation` and the flattened generator `relations`
directly from the source, and prove the specified properties of the
derived 16x16 grid.
-/

namespace CompareLookup

/-- Type tag 0x00 from the source. -/
def NULL : Nat := 0x00

/-- Type tag 0x01 from the source. -/
def BOOL : Nat := 0x01

/-- Type tag 0x02 from the source. -/
def UINT : Nat := 0x02

/-- Type tag 0x03 from the source. -/
def INT : Nat := 0x03

/-- Type tag 0x04 from the source. -/
def FLOAT : Nat := 0x04

/-- Type tag 0x05 from the source. -/
def DECIMAL : Nat := 0x05

/-- Type tag 0x06 from the source. -/
def TIMESTAMP : Nat := 0x06

/-- Type tag 0x07 from the source. -/
def SYMBOL : Nat := 0x07

/-- Type tag 0x08 from the source. -/
def STRING : Nat := 0x08

/-- Type tag 0x09 from the source. -/
def CLOB : Nat := 0x09

/-- Type tag 0x0a from the source. -/
def BLOB : Nat := 0x0a

/-- Type tag 0x0b from the source. -/
def LIST : Nat := 0x0b

/-- Type tag 0x0c from the source. -/
def SEXP : Nat := 0x0c

/-- Type tag 0x0d from the source. -/
def STRUCT : Nat := 0x0d

/-- Type tag 0x0e from the source. -/
def ANNOTATION : Nat := 0x0e

/-- Type tag 0x0f from the source. -/
def RESERVED : Nat := 0x0f

/-- The hand-authored sparse strict-less table: the Python dict
`strict_less_lookup` mapping a tag to the set of tags unconditionally
greater than it.  A tag absent from the dict maps to `none`. -/
def strict_less_lookup (t : Nat) : Option (List Nat) :=
  if t = BOOL then
    some [UINT, INT, FLOAT, DECIMAL, TIMESTAMP, SYMBOL, STRING, CLOB, BLOB, LIST, SEXP, STRUCT]
  else if t = UINT then
    some [TIMESTAMP, SYMBOL, STRING, CLOB, BLOB, LIST, SEXP, STRUCT]
  else if t = INT then
    some [UINT, TIMESTAMP, SYMBOL, STRING, CLOB, BLOB, LIST, SEXP, STRUCT]
  else if t = FLOAT then
    some [TIMESTAMP, SYMBOL, STRING, CLOB, BLOB, LIST, SEXP, STRUCT]
  else if t = DECIMAL then
    some [TIMESTAMP, SYMBOL, STRING, CLOB, BLOB, LIST, SEXP, STRUCT]
  else if t = TIMESTAMP then
    some [SYMBOL, STRING, CLOB, BLOB, LIST, SEXP, STRUCT]
  else if t = STRING then
    some [STRING, CLOB, BLOB, LIST, SEXP, STRUCT]
  else if t = CLOB then
    some [LIST, SEXP, STRUCT]
  else if t = BLOB then
    some [LIST, SEXP, STRUCT]
  else if t = LIST then
    some [STRUCT]
  else if t = SEXP then
    some [STRUCT]
  else
    none

/-- Relation tag, string constant from the source. -/
def Less : String := "alwaysLess"

/-- Relation tag, string constant from the source. -/
def Greater : String := "alwaysGreater"

/-- Relation tag, string constant from the source. -/
def CompareSameType : String := "compareSameType"

/-- Relation tag, string constant from the source. -/
def CompareDifferentTypes : String := "compareDifferentTypes"

/-- Relation tag, string constant from the source. -/
def Invalid : String := "unsupportedRelation"

/-- The predicate `not_supported` from the source: the tags excluded
from any ordering comparison. -/
def not_supported (t : Nat) : Bool :=
  t == SYMBOL || t == SEXP || t == STRUCT || t == ANNOTATION || t == RESERVED

/-- The predicate `numeric` from the source. -/
def numeric (t : Nat) : Bool :=
  t == UINT || t == INT || t == FLOAT || t == DECIMAL

/-- The helper `strict_less_aux` from the source: membership of `type2`
in the table entry of `type1`, with a missing entry (the Python
`KeyError` branch) giving `false`. -/
def strict_less_aux (type1 type2 : Nat) : Bool :=
  match strict_less_lookup type1 with
  | some s => s.contains type2
  | none => false

/-- The central function `relation` from the source, with the source's
branch order: unsupported check first, then same-type, then the two
strict-less lookups, else different-types. -/
def relation (type1 type2 : Nat) : String :=
  if not_supported type1 || not_supported type2 then
    Invalid
  else if type1 == type2 then
    CompareSameType
  else if strict_less_aux type1 type2 then
    Less
  else if strict_less_aux type2 type1 then
    Greater
  else
    CompareDifferentTypes

/-- The generator `relations` from the source, flattened into a list:
outer loop `type1` over 0..15, inner loop `type2` over 0..15. -/
def relations : List String :=
  (List.range 16).flatMap fun type1 =>
    (List.range 16).map fun type2 => relation type1 type2

end CompareLookup

open CompareLookup

set_option maxRecDepth 100000

/-- C1 counterexample: contrary to the claim, `relation UINT INT` is not
`CompareDifferentTypes` (it is `Greater`, because the table entry for
`INT` contains `UINT`). -/
theorem numeric_cross_comparison_counterexample :
    relation UINT INT ≠ CompareDifferentTypes := by decide

/-- C1 (amended): every pair of distinct numeric tags other than the
pair {INT, UINT} relates as `CompareDifferentTypes`; the pair INT/UINT
is ordered, with `relation INT UINT = Less` and
`relation UINT INT = Greater`, since `UINT` is in `INT`'s strict-less
set. -/
theorem numeric_cross_comparison_amended :
    (∀ a < 16, ∀ b < 16,
      (numeric a = true ∧ numeric b = true ∧ a ≠ b ∧
        ¬(a = INT ∧ b = UINT) ∧ ¬(a = UINT ∧ b = INT)) →
      relation a b = CompareDifferentTypes) ∧
    relation INT UINT = Less ∧ relation UINT INT = Greater := by decide

/-- C1 witness: the amended theorem applied at the concrete numeric
pair (UINT, FLOAT). -/
theorem numeric_cross_comparison_witness :
    relation UINT FLOAT = CompareDifferentTypes :=
  numeric_cross_comparison_amended.1 UINT (by decide) FLOAT (by decide) (by decide)

/-- C2 counterexample: contrary to the claim, `relation STRUCT LIST` is
not `Greater`: `STRUCT` is in the unsupported set, so the first branch
of `relation` fires. -/
theorem struct_list_counterexample :
    relation STRUCT LIST ≠ Greater := by decide

/-- C2 (amended): `relation STRUCT LIST` returns `Invalid`
(`unsupportedRelation`), because `STRUCT` is unsupported. -/
theorem struct_list_amended :
    relation STRUCT LIST = Invalid := by decide

/-- C3 counterexample: contrary to the claim, `relation t t` is not
`CompareSameType` for every tag in [0, 15]: at the unsupported tag
`SYMBOL` it is `Invalid`. -/
theorem same_type_reflexivity_counterexample :
    relation SYMBOL SYMBOL ≠ CompareSameType := by decide

/-- C3 (amended): for every supported type tag t in [0, 15],
`relation t t` returns `CompareSameType`; the unsupported tags return
`Invalid` instead. -/
theorem same_type_reflexivity_amended :
    ∀ t < 16,
      (not_supported t = false → relation t t = CompareSameType) ∧
      (not_supported t = true → relation t t = Invalid) := by decide

/-- C3 witness: the amended theorem applied at the concrete supported
tag STRING and at the concrete unsupported tag SEXP. -/
theorem same_type_reflexivity_witness :
    relation STRING STRING = CompareSameType ∧ relation SEXP SEXP = Invalid :=
  ⟨(same_type_reflexivity_amended STRING (by decide)).1 (by decide),
   (same_type_reflexivity_amended SEXP (by decide)).2 (by decide)⟩

/-- C4 counterexample: the claim, instantiated at A = B = STRING, is
false: `STRING` is a member of its own strict-less set, so
`strict_less_aux STRING STRING` is true and does not force
`strict_less_aux STRING STRING` to be false. -/
theorem strict_less_asymmetry_counterexample :
    strict_less_aux STRING STRING = true ∧
    ¬ strict_less_aux STRING STRING = false := by decide

/-- C4 (amended): the strict-less table is asymmetric on distinct
tags: for every pair of type tags A ≠ B, if B is in A's strict-less set
then A is not in B's strict-less set.  (The sole symmetric entry is the
STRING self-loop, excluded by A ≠ B.) -/
theorem strict_less_asymmetry_amended :
    ∀ a < 16, ∀ b < 16,
      (a ≠ b ∧ strict_less_aux a b = true) → strict_less_aux b a = false := by decide

/-- C4 witness: the amended theorem applied at the concrete pair
(BOOL, UINT). -/
theorem strict_less_asymmetry_witness :
    strict_less_aux UINT BOOL = false :=
  strict_less_asymmetry_amended BOOL (by decide) UINT (by decide) (by decide)

/-- C5: for every pair of type tags a, b in [0, 15], if a or b is in the
unsupported set {SYMBOL, SEXP, STRUCT, ANNOTATION, RESERVED}, then
`relation a b` returns `Invalid`, even when a = b. -/
theorem unsupported_dominance :
    ∀ a < 16, ∀ b < 16,
      (not_supported a = true ∨ not_supported b = true) →
      relation a b = Invalid := by decide

/-- C5 witness: the theorem applied at the concrete same-tag pair
(SYMBOL, SYMBOL). -/
theorem unsupported_dominance_witness :
    relation SYMBOL SYMBOL = Invalid :=
  unsupported_dominance SYMBOL (by decide) SYMBOL (by decide) (Or.inl (by decide))

/-- C6: for every pair of distinct supported type tags a ≠ b,
`relation a b = Less` if and only if `relation b a = Greater`. -/
theorem relation_antisymmetry :
    ∀ a < 16, ∀ b < 16,
      (a ≠ b ∧ not_supported a = false ∧ not_supported b = false) →
      (relation a b = Less ↔ relation b a = Greater) := by decide

/-- C6 witness: the theorem applied at the concrete pair (BOOL, UINT). -/
theorem relation_antisymmetry_witness :
    relation BOOL UINT = Less ↔ relation UINT BOOL = Greater :=
  relation_antisymmetry BOOL (by decide) UINT (by decide) (by decide)

/-- C7: `relations` produces exactly 256 values, and for every pair the
value at row-major index type1 * 16 + type2 equals
`relation type1 type2`. -/
theorem relations_full_table :
    relations.length = 256 ∧
    ∀ t1 < 16, ∀ t2 < 16,
      relations.get? (t1 * 16 + t2) = some (relation t1 t2) := by decide

/-- C7 witness: the theorem applied at the concrete pair (3, 2), i.e.
index 50 of the flattened table. -/
theorem relations_full_table_witness :
    relations.get? (3 * 16 + 2) = some (relation 3 2) :=
  relations_full_table.2 3 (by decide) 2 (by decide)

/-- C8: `relation` is total: for all a, b in [0, 15] it returns one of
the five relation tags, and `strict_less_aux` returns false (rather
than failing) whenever type1 has no entry in the strict-less table. -/
theorem relation_totality :
    (∀ a < 16, ∀ b < 16,
      relation a b = Less ∨ relation a b = Greater ∨
      relation a b = CompareSameType ∨ relation a b = CompareDifferentTypes ∨
      relation a b = Invalid) ∧
    (∀ t1 t2 : Nat, strict_less_lookup t1 = none → strict_less_aux t1 t2 = false) := by
  refine ⟨by decide, fun t1 t2 h => ?_⟩
  unfold strict_less_aux
  rw [h]

/-- C8 witness: the theorem applied at the concrete pair (0, 1) and, for
the missing-entry branch, at NULL (which has no table entry). -/
theorem relation_totality_witness :
    (relation 0 1 = Less ∨ relation 0 1 = Greater ∨
      relation 0 1 = CompareSameType ∨ relation 0 1 = CompareDifferentTypes ∨
      relation 0 1 = Invalid) ∧
    strict_less_aux NULL BOOL = false :=
  ⟨relation_totality.1 0 (by decide) 1 (by decide),
   relation_totality.2 NULL BOOL (by decide)⟩

/-- C9: `relation NULL BOOL` is `CompareDifferentTypes`, not `Less`:
NULL has no entry in the strict-less table and appears in no tag's
strict-less set, so neither strict-less branch fires. -/
theorem null_bool_not_less :
    relation NULL BOOL = CompareDifferentTypes ∧
    strict_less_lookup NULL = none ∧
    ∀ t < 16, strict_less_aux t NULL = false := by decide

/-- C9 witness: the third conjunct of the theorem applied at the
concrete tag BOOL. -/
theorem null_bool_not_less_witness :
    strict_less_aux BOOL NULL = false :=
  null_bool_not_less.2.2 BOOL (by decide)

/-- C10: for every type tag t in [0, 15], `relation t t` is never `Less`
or `Greater` (always `CompareSameType` or `Invalid`), even though
STRING is a member of its own strict-less set: the unsupported and
same-type branches precede the strict-less lookups. -/
theorem same_type_never_ordered :
    (∀ t < 16,
      (relation t t = CompareSameType ∨ relation t t = Invalid) ∧
      relation t t ≠ Less ∧ relation t t ≠ Greater) ∧
    strict_less_aux STRING STRING = true := by decide

/-- C10 witness: the theorem applied at the concrete tag STRING, whose
strict-less self-loop never surfaces in the relation. -/
theorem same_type_never_ordered_witness :
    relation STRING STRING ≠ Less :=
  (same_type_never_ordered.1 STRING (by decide)).2.1
